import Mathlib

/-!
Shallow embedding of the `SiteLoader` class of the
`sempervirens-site-loader` repository, together with theorems checking the
natural-language specification against it.

The repository snapshot contains three revisions of
`src/site-loader.class.js`.  The revision with the inline middleware
wrapper (the second block of `src/src/site-loader.class.js`) provides
`#initRequestProperties`, `#initStaticPath`, `#initMiddleware`,
`#initEndpointValidation` and `#initCatchAll` as cited by most claims; the
newest revision (embedded at the end of `README.md` and exercised by
`test/site-loader-test-server.js`) additionally provides `isMultiSite`,
`#initCommonResources` and the development-mode asset-path rewriting in
`#initCatchAll`.  Both are embedded below, with each definition's doc
comment naming the source function it translates.
-/

namespace SiteLoader

/-- `listIsPre pat l` is true when the list `l` starts with `pat`
(character-by-character); helper for the JavaScript string primitives. -/
def listIsPre : List Char → List Char → Bool
  | [], _ => true
  | _ :: _, [] => false
  | a :: as, b :: bs => a == b && listIsPre as bs

/-- JavaScript `String.prototype.includes`: some suffix of `s` starts with
`pat`. -/
def containsAt (s pat : List Char) : Bool :=
  (List.range (s.length + 1)).any (fun i => listIsPre pat (s.drop i))

/-- JavaScript `s.includes(t)`. -/
def jsIncludes (s t : String) : Bool := containsAt s.data t.data

/-- JavaScript `s.startsWith(t)` / `charAt(0)` tests on a string. -/
def strStartsWith (s t : String) : Bool := listIsPre t.data s.data

/-- JavaScript `s.endsWith(t)` (used to model Express `*`-patterns,
where `*` consumes an arbitrary leading portion of the path). -/
def strEndsWith (s t : String) : Bool := listIsPre t.data.reverse s.data.reverse

/-- Lower-casing of a string, for `method.toLowerCase()`. -/
def strLower (s : String) : String := ⟨s.data.map Char.toLower⟩

/-- Splitter for JavaScript `String.prototype.split` with a non-empty
separator `c :: cs`: leftmost, non-overlapping matches.  The `fuel`
argument (instantiated with the input's length) makes the recursion
structural so that the kernel can evaluate it. -/
def splitOnFuel (c : Char) (cs : List Char) : Nat → List Char → List (List Char)
  | _, [] => [[]]
  | 0, a :: as => [a :: as]
  | fuel + 1, a :: as =>
    if listIsPre (c :: cs) (a :: as) then
      [] :: splitOnFuel c cs fuel (List.drop (cs.length + 1) (a :: as))
    else
      match splitOnFuel c cs fuel as with
      | [] => [[a]]
      | h :: t => (a :: h) :: t

/-- Splitting a character list on a non-empty separator. -/
def splitOnL (c : Char) (cs : List Char) (s : List Char) : List (List Char) :=
  splitOnFuel c cs s.length s

/-- JavaScript `s.split(sep)` (for the non-empty separators the source
uses: `" "`, `":"`, `"/"`, `"/static"`). -/
def jsSplit (s sep : String) : List String :=
  match sep.data with
  | [] => [s]
  | c :: cs => (splitOnL c cs s.data).map (fun l => String.mk l)

/-- `req.path.split('/').filter(Boolean)` from `#initRequestProperties`:
the non-empty path segments. -/
def pathSegments (p : String) : List String :=
  (jsSplit p "/").filter (fun s => s != "")

/-- Node `path.join` for absolute base paths: concatenate, drop empty and
`"."` segments, and resolve `".."` segments against the stack (excess
`".."` at the root is discarded, as Node does for absolute paths). -/
def normJoin (base rest : String) : String :=
  let segs := (jsSplit (base ++ "/" ++ rest) "/").filter (fun s => s != "" && s != ".")
  let stack := segs.foldl (fun acc s => if s == ".." then acc.dropLast else acc ++ [s]) ([] : List String)
  "/" ++ String.intercalate "/" stack

/-- The filesystem, as a finite map from absolute normalized paths to file
contents. -/
abbrev FS := List (String × String)

/-- File lookup (`fs.readFileSync` where present). -/
def fsRead (fs : FS) (p : String) : Option String :=
  (fs.find? (fun kv => kv.fst == p)).map (fun kv => kv.snd)

/-- `fs.existsSync`. -/
def fsExists (fs : FS) (p : String) : Bool := (fsRead fs p).isSome

/-- An Express request together with the two properties the source
attaches to it (`req.isSite`, `req.pathParts`).  `isSite` starts out
`false` (JavaScript `undefined` is falsy in every use the source makes of
it before a classifier has run). -/
structure Req where
  method : String
  hostname : String
  path : String
  isSite : Bool := false
  pathParts : List String := []
deriving DecidableEq, Repr

/-- A terminal HTTP action produced by one of the site's gates. -/
inductive Resp where
  /-- `res.status(code).send()` with an empty body. -/
  | emptyStatus (code : Nat)
  /-- `res.send(body)` (status 200) with an optional content-type header. -/
  | sent (code : Nat) (body : String) (ctype : Option String)
  /-- `res.sendFile(path)` with an optional content-type header. -/
  | fileSent (path : String) (ctype : Option String)
  /-- Delegation to the external static-file server
  (`express.static(root)` applied to the remainder `rest`). -/
  | delegate (root : String) (rest : String)
deriving DecidableEq, Repr

/-- Outcome of one handler: either pass control to the next layer with the
(possibly mutated) request, or respond and stop.  `ran` records labels of
user middleware handlers that executed, used to state invocation claims. -/
inductive Step where
  | next (req : Req) (ran : List String)
  | stop (resp : Resp) (ran : List String)
deriving DecidableEq, Repr

/-- The kind of a registered layer, used to state ordering claims. -/
inductive LayerKind where
  | classifier | staticGate | mw | guard | endpoints | catchAll
deriving DecidableEq, Repr

/-- One layer registered on the Express app: an applicability test
(Express path/method matching for the route it was registered under) and
the handler body. -/
structure Layer where
  kind : LayerKind
  applies : Req → Bool
  run : FS → Req → Step

/-- Express dispatch over the registered layers, in registration order: a
layer whose route does not match is skipped; a layer that responds stops
the chain; a layer that calls `next` passes the request on. -/
def runChain (fs : FS) : List Layer → Req → Option Resp × List String
  | [], _ => (none, [])
  | l :: ls, req =>
    if l.applies req then
      match l.run fs req with
      | .next r ran =>
        let rest := runChain fs ls r
        (rest.fst, ran ++ rest.snd)
      | .stop resp ran => (some resp, ran)
    else runChain fs ls req

/-- An entry of the `endpoints` constructor argument; only its `path`
string (`"METHOD /url-path"`) is consulted by the embedded code. -/
structure EndpointSpec where
  path : String
deriving DecidableEq, Repr

/-- An entry of the `middleware` constructor argument: an optional
`"METHOD /url-path"` scope and the user-supplied handler. -/
structure MiddlewareSpec where
  path : Option String
  handler : Req → Step

/-- The constructor-stored instance properties of a `SiteLoader`. -/
structure SiteCfg where
  domain : String := ""
  isProd : Bool := false
  isMultiSite : Bool := false
  apiBasePath : String := "/api"
  sitesDir : String := "sites"
  endpoints : List EndpointSpec := []
  middleware : List MiddlewareSpec := []

/-- The error message thrown by `#validate` when `domain` is falsy. -/
def requiredDomainMsg : String := "\"domain\" is required."

/-- The error message thrown by `#validate` for a malformed endpoint
path (the three sentences joined with single spaces). -/
def invalidEndpointMsg (p : String) : String :=
  "Endpoint path \"" ++
    (p ++ "\" is not valid. Endpoint paths must have a method, a space, and a path. For example, \"POST /path-1\" and \"GET /api/path-1\" are valid paths.")

/-- The `#validate` test on one endpoint: `path.split(' ').length != 2`. -/
def badEndpoint (e : EndpointSpec) : Bool := (jsSplit e.path " ").length != 2

/-- `apiBasePath.charAt(0) == '/' ? apiBasePath : '/' + apiBasePath` from
the constructor. -/
def normalizeBasePath (s : String) : String :=
  if strStartsWith s "/" then s else "/" ++ s

/-- The constructor plus `#validate`: store the fields (normalizing
`apiBasePath`), throw on a falsy `domain`, then throw on the first
endpoint whose path does not split on `' '` into exactly two tokens. -/
def construct (c : SiteCfg) : Except String SiteCfg :=
  if c.domain == "" then .error requiredDomainMsg
  else
    match c.endpoints.find? badEndpoint with
    | some e => .error (invalidEndpointMsg e.path)
    | none => .ok { c with apiBasePath := normalizeBasePath c.apiBasePath }

/-- `publicDir` from `#initInstanceProperties`:
`join(cwd, sitesDir, domain, isProd ? 'dist' : 'public')`. -/
def publicDir (cwd : String) (cfg : SiteCfg) : String :=
  normJoin (normJoin (normJoin cwd cfg.sitesDir) cfg.domain)
    (if cfg.isProd then "dist" else "public")

/-- `#initRequestProperties` of the middleware revision:
`req.pathParts = req.path.split('/').filter(Boolean)` and
`req.isSite = req.isSite || hostname.includes(domain) || pathParts[0] ==
domain || pathParts[1] == domain || pathParts[2] == domain`. -/
def classifyV2 (cfg : SiteCfg) (req : Req) : Req :=
  let parts := pathSegments req.path
  { req with
    pathParts := parts
    isSite := req.isSite || jsIncludes req.hostname cfg.domain
      || parts.get? 0 == some cfg.domain
      || parts.get? 1 == some cfg.domain
      || parts.get? 2 == some cfg.domain }

/-- `#initRequestProperties` of the newest revision (the one with
`isMultiSite`): `req.isSite = !isMultiSite || hostname.includes(domain)
|| pathParts[0] == domain || pathParts[1] == domain || pathParts[2] ==
domain` (the flag is recomputed, not OR-ed with its previous value). -/
def classifyV3 (cfg : SiteCfg) (req : Req) : Req :=
  let parts := pathSegments req.path
  { req with
    pathParts := parts
    isSite := !cfg.isMultiSite || jsIncludes req.hostname cfg.domain
      || parts.get? 0 == some cfg.domain
      || parts.get? 1 == some cfg.domain
      || parts.get? 2 == some cfg.domain }

/-- The classifier as a registered layer (`app.use`, so it applies to
every request). -/
def classifierLayerV2 (cfg : SiteCfg) : Layer :=
  { kind := .classifier
    applies := fun _ => true
    run := fun _ req => .next (classifyV2 cfg req) [] }

/-- `req.path.split('/static')` from `#initStaticPath`. -/
def staticPieces (p : String) : List String := jsSplit p "/static"

/-- Whether the `app.use('*/static', ...)` mount matches a request path:
the path contains `"/static"` at a position where what follows is empty
or begins with `"/"` (Express prefix-mount boundary; the `*` consumes an
arbitrary leading portion). -/
def staticApplies (p : String) : Bool :=
  (staticPieces p).length ≥ 2 &&
    ((staticPieces p).drop 1).any (fun s => s == "" || strStartsWith s "/")

/-- `pathParts[pathParts.length - 1]` of `req.path.split('/static')`: the
remainder of the path after the last `"/static"` marker.  (Express strips
the greedily matched `*/static` mount prefix before the handler runs;
taking the last piece of the split of the full path computes the same
remainder.) -/
def staticRest (p : String) : String := ((staticPieces p).getLast?).getD ""

/-- The `#initStaticPath` handler body of the middleware revision: if the
request is for this site, 404 when `join(publicDir, remainder)` does not
exist, otherwise delegate to `express.static(publicDir)`; for other
sites' requests, pass through untouched. -/
def staticRunV2 (pubDir : String) (fs : FS) (req : Req) : Step :=
  if req.isSite then
    if !(fsExists fs (normJoin pubDir (staticRest req.path))) then
      .stop (.emptyStatus 404) []
    else
      .stop (.delegate pubDir (staticRest req.path)) []
  else .next req []

/-- `#initStaticPath` as a registered layer. -/
def staticLayerV2 (pubDir : String) : Layer :=
  { kind := .staticGate
    applies := fun req => staticApplies req.path
    run := staticRunV2 pubDir }

/-- Modelled from the spec: the external static-file-serving primitive
(spec section 1 and 4.2) — "given a root directory and a request path,
returns the file or signals not found", scoped to `assetsRootDir`.  It
resolves the remainder against the root and serves the file's content. -/
def serveStaticFile (fs : FS) (root rest : String) : Resp :=
  match fsRead fs (normJoin root rest) with
  | some c => .sent 200 c none
  | none => .emptyStatus 404

/-- The wrapper `#initMiddleware` puts around every user handler:
`req.isSite === false ? next() : handler(req, res, next)`. -/
def mwHandle (h : Req → Step) (req : Req) : Step :=
  if req.isSite == false then .next req [] else h req

/-- The normalized route of a scoped middleware path `"METHOD /p"`:
`_path.charAt(0) == '/' ? _path : '/' + _path` applied to the second
space-separated token. -/
def mwRoutePath (p : String) : String :=
  normalizeBasePath (((jsSplit p " ").get? 1).getD "")

/-- One middleware registration from `#initMiddleware`: with a `path`,
`app[method.toLowerCase()]('*' + _path, handle)` — an Express route whose
`*` consumes an arbitrary leading portion, so it matches exactly the
requests with that method whose path ends with the normalized route;
without a `path`, `app.use(handle)`, matching every request. -/
def mwLayer (m : MiddlewareSpec) : Layer :=
  match m.path with
  | some p =>
    { kind := .mw
      applies := fun req =>
        strLower req.method == strLower (((jsSplit p " ").get? 0).getD "")
          && strEndsWith req.path (mwRoutePath p)
      run := fun _ req => mwHandle m.handler req }
  | none =>
    { kind := .mw
      applies := fun _ => true
      run := fun _ req => mwHandle m.handler req }

/-- `"/" + p1` for `pathParts[i]`, with JavaScript template-literal
semantics for a missing element (`undefined` prints as `"undefined"`). -/
def slashSeg (parts : List String) (i : Nat) : String :=
  "/" ++ ((parts.get? i).getD "undefined")

/-- The per-endpoint route used by `#initEndpointValidation`:
`path.split(' ')[1].split(':')[0]` — the URL part of the endpoint path
with everything from the first `:` (a `:param` token) on stripped. -/
def stripParamPath (p : String) : String :=
  ((jsSplit (((jsSplit p " ").get? 1).getD "undefined") ":").get? 0).getD ""

/-- The `#initEndpointValidation` handler body of the middleware
revision: if the request is for this site, its first or second path
segment (slash-prepended) equals `apiBasePath`, and no registered
endpoint's stripped route is a substring of `req.path`, respond 404;
otherwise pass through. -/
def guardRun (cfg : SiteCfg) (req : Req) : Step :=
  if req.isSite
      && (slashSeg req.pathParts 0 == cfg.apiBasePath
          || slashSeg req.pathParts 1 == cfg.apiBasePath)
      && !(cfg.endpoints.any (fun e => jsIncludes req.path (stripParamPath e.path))) then
    .stop (.emptyStatus 404) []
  else .next req []

/-- `#initEndpointValidation` as a registered layer (`app.use`). -/
def guardLayer (cfg : SiteCfg) : Layer :=
  { kind := .guard
    applies := fun _ => true
    run := fun _ req => guardRun cfg req }

/-- Modelled from the spec: the external endpoint-registration
collaborator (`registerEndpoints`, spec sections 4.6 and 6) binds each
endpoint's method and wildcard-prefixed path onto the routing table and
responds from its handler on a match. -/
def endpointsLayer (cfg : SiteCfg) : Layer :=
  { kind := .endpoints
    applies := fun req =>
      cfg.endpoints.any (fun e =>
        strLower req.method == strLower (((jsSplit e.path " ").get? 0).getD "")
          && strEndsWith req.path (((jsSplit e.path " ").get? 1).getD ""))
    run := fun _ _ => .stop (.sent 200 "endpoint response" none) [] }

/-- The `#initCatchAll` handler body of the middleware revision
(`app.get('*')`): for this site's requests, `res.sendFile(index.html)`
when it exists, else 404; for other sites' requests, pass through. -/
def catchAllRunV2 (pubDir : String) (fs : FS) (req : Req) : Step :=
  if req.isSite then
    if fsExists fs (normJoin pubDir "index.html") then
      .stop (.fileSent (normJoin pubDir "index.html") none) []
    else
      .stop (.emptyStatus 404) []
  else .next req []

/-- `#initCatchAll` as a registered layer: a `GET`-only wildcard route. -/
def catchAllLayerV2 (pubDir : String) : Layer :=
  { kind := .catchAll
    applies := fun req => req.method == "GET"
    run := catchAllRunV2 pubDir }

/-- The layers `load` registers, in order, for the middleware revision:
request properties, static path, site middleware, endpoint validation,
endpoints, catch-all. -/
def chainV2 (cfg : SiteCfg) (pubDir : String) : List Layer :=
  [classifierLayerV2 cfg, staticLayerV2 pubDir]
    ++ cfg.middleware.map mwLayer
    ++ [guardLayer cfg, endpointsLayer cfg, catchAllLayerV2 pubDir]

/-- `listIsPreBy eq pat l`: `l` starts with `pat` under the character
comparison `eq` (used for case-insensitive regex matching). -/
def listIsPreBy (eq : Char → Char → Bool) : List Char → List Char → Bool
  | [], _ => true
  | _ :: _, [] => false
  | a :: as, b :: bs => eq a b && listIsPreBy eq as bs

/-- Left-to-right, non-overlapping replacement of the non-empty pattern
`c :: cs` by `rep` under the character comparison `eq` (JavaScript
`String.prototype.replace` with a global regex of a literal pattern;
replaced text is not rescanned).  Structural fuel recursion as above. -/
def replaceFuel (eq : Char → Char → Bool) (c : Char) (cs rep : List Char) :
    Nat → List Char → List Char
  | _, [] => []
  | 0, s => s
  | fuel + 1, a :: as =>
    if listIsPreBy eq (c :: cs) (a :: as) then
      rep ++ replaceFuel eq c cs rep fuel (List.drop (cs.length + 1) (a :: as))
    else
      a :: replaceFuel eq c cs rep fuel as

/-- `s.replace(new RegExp(pat, 'gi'), rep)` for a literal pattern:
case-insensitive global replacement. -/
def replaceAllCI (s pat rep : String) : String :=
  match pat.data with
  | [] => s
  | c :: cs =>
    ⟨replaceFuel (fun a b => a.toLower == b.toLower) c cs rep.data s.data.length s.data⟩

/-- `s.replace(/pat/g, rep)` for a literal pattern: case-sensitive global
replacement. -/
def replaceAllCS (s pat rep : String) : String :=
  match pat.data with
  | [] => s
  | c :: cs => ⟨replaceFuel (fun a b => a == b) c cs rep.data s.data.length s.data⟩

/-- The development-mode asset-path rewriting of the newest revision's
`#initCatchAll`: first replace every (case-insensitive) occurrence of
`"{domain}/static"` with `"static"`, then replace every occurrence of
`"static"` with `"{domain}/static"`. -/
def rewriteIndex (domain content : String) : String :=
  replaceAllCS (replaceAllCI content (domain ++ "/static") "static")
    "static" (domain ++ "/static")

/-- The `#initCatchAll` handler body of the newest revision: for this
site's requests, read `index.html`; 404 when absent; otherwise
`res.send` its content, rewritten by `rewriteIndex` unless `isProd`. -/
def catchAllRunV3 (cfg : SiteCfg) (pubDir : String) (fs : FS) (req : Req) : Step :=
  if req.isSite then
    match fsRead fs (normJoin pubDir "index.html") with
    | some content =>
      .stop (.sent 200 (if cfg.isProd then content else rewriteIndex cfg.domain content) none) []
    | none => .stop (.emptyStatus 404) []
  else .next req []

/-- The newest revision's `#initCatchAll` as a registered layer: a
`GET`-only wildcard route. -/
def catchAllLayerV3 (cfg : SiteCfg) (pubDir : String) : Layer :=
  { kind := .catchAll
    applies := fun req => req.method == "GET"
    run := catchAllRunV3 cfg pubDir }

/-- The root-resource allow-list of `#initCommonResources`. -/
def commonNames : List String := ["sitemap.xml", "robots.txt", ".well-known"]

/-- The `#initCommonResources` handler body of the newest revision: for
this site's requests, shift a leading domain segment off `req.pathParts`
(an in-place mutation the request keeps); if the first remaining segment
is on the allow-list, resolve the joined remaining segments against
`publicDir` and serve with content-type `text/plain` (404 when absent);
otherwise pass through with the (possibly shifted) `pathParts`. -/
def commonRun (cfg : SiteCfg) (pubDir : String) (fs : FS) (req : Req) : Step :=
  if req.isSite then
    let parts :=
      if req.pathParts.get? 0 == some cfg.domain then req.pathParts.drop 1
      else req.pathParts
    if (parts.get? 0).elim false (fun h => commonNames.contains h) then
      let path := normJoin pubDir (String.intercalate "/" parts)
      if fsExists fs path then
        .stop (.fileSent path (some "text/plain")) []
      else
        .stop (.emptyStatus 404) []
    else
      .next { req with pathParts := parts } []
  else .next req []

/-! ## Helper lemmas -/

theorem listIsPre_self_append (p r : List Char) : listIsPre p (p ++ r) = true := by
  induction p with
  | nil => rfl
  | cons a as ih => simp [listIsPre, ih]

theorem listIsPre_iff_append (p l : List Char) :
    listIsPre p l = true ↔ ∃ r, l = p ++ r := by
  induction p generalizing l with
  | nil => exact iff_of_true rfl ⟨l, rfl⟩
  | cons a as ih =>
    cases l with
    | nil => simp [listIsPre]
    | cons b bs =>
      simp only [listIsPre, Bool.and_eq_true, beq_iff_eq, ih, List.cons_append,
        List.cons.injEq]
      constructor
      · rintro ⟨rfl, r, rfl⟩
        exact ⟨r, rfl, rfl⟩
      · rintro ⟨r, rfl, rfl⟩
        exact ⟨rfl, r, rfl⟩

theorem strEndsWith_iff (s t : String) :
    strEndsWith s t = true ↔ ∃ pre : String, s = pre ++ t := by
  unfold strEndsWith
  rw [listIsPre_iff_append]
  constructor
  · rintro ⟨r, hr⟩
    refine ⟨⟨r.reverse⟩, String.ext ?_⟩
    rw [String.data_append]
    have := congrArg List.reverse hr
    simpa using this
  · rintro ⟨pre, rfl⟩
    refine ⟨pre.data.reverse, ?_⟩
    rw [String.data_append]
    simp [List.reverse_append]

theorem jsIncludes_middle (a p b : String) :
    jsIncludes (a ++ (p ++ b)) p = true := by
  unfold jsIncludes containsAt
  apply List.any_eq_true.mpr
  refine ⟨a.data.length, List.mem_range.mpr ?_, ?_⟩
  · rw [String.data_append, String.data_append, List.length_append, List.length_append]
    omega
  · rw [String.data_append, String.data_append, List.drop_left]
    exact listIsPre_self_append _ _

/-! ## Claim theorems -/

/-- C9: construction fails synchronously exactly when `domain` is empty
(message `"domain" is required.`) or some endpoint path does not split on
`' '` into exactly two tokens (message naming the offending path); a
configuration passing both checks constructs successfully, and `load`
(chain registration) is a total function of the configuration, so it can
raise no configuration error. -/
theorem construct_config_error_cases :
    ∀ c : SiteCfg,
      ((∃ c', construct c = .ok c') ↔
        (c.domain ≠ "" ∧ c.endpoints.all (fun e => !badEndpoint e) = true))
      ∧ (c.domain = "" → construct c = .error requiredDomainMsg)
      ∧ (∀ e, c.domain ≠ "" → c.endpoints.find? badEndpoint = some e →
          construct c = .error (invalidEndpointMsg e.path)
          ∧ jsIncludes (invalidEndpointMsg e.path) e.path = true)
      ∧ (∀ pub, (chainV2 c pub).length = c.middleware.length + 5) := by
  intro c
  refine ⟨?_, ?_, ?_, ?_⟩
  · constructor
    · rintro ⟨c', hc⟩
      unfold construct at hc
      by_cases hd : c.domain == ""
      · simp [hd] at hc
      · refine ⟨by simpa using hd, ?_⟩
        cases hf : c.endpoints.find? badEndpoint with
        | some e => simp [hd, hf] at hc
        | none =>
          apply List.all_eq_true.mpr
          intro e he
          have := List.find?_eq_none.mp hf e he
          simp at this
          simp [this]
    · rintro ⟨hd, hall⟩
      have hd' : (c.domain == "") = false := by simpa using hd
      cases hf : c.endpoints.find? badEndpoint with
      | some e =>
        have hmem := List.mem_of_find?_eq_some hf
        have hbad := List.find?_some hf
        have := List.all_eq_true.mp hall e hmem
        simp [hbad] at this
      | none =>
        refine ⟨{ c with apiBasePath := normalizeBasePath c.apiBasePath }, ?_⟩
        simp [construct, hd', hf]
  · intro hd
    simp [construct, hd]
  · intro e hd hf
    have hd' : (c.domain == "") = false := by simpa using hd
    refine ⟨by simp [construct, hd', hf], jsIncludes_middle _ _ _⟩
  · intro pub
    unfold chainV2
    simp [List.length_append, List.length_map]

/-- C9 witness: the empty-domain configuration fails with the exact
message, the spec's `"/no-method"` endpoint fails with a message naming
it, and a well-formed configuration constructs successfully. -/
theorem construct_config_error_cases_witness :
    construct { domain := "" } = .error requiredDomainMsg
    ∧ construct { domain := "site-1", endpoints := [⟨"/no-method"⟩] }
        = .error (invalidEndpointMsg "/no-method")
    ∧ (∃ c', construct { domain := "site-1", endpoints := [⟨"GET /api/test-1"⟩] } = .ok c') := by
  refine ⟨(construct_config_error_cases _).2.1 rfl, ?_, ?_⟩
  · exact ((construct_config_error_cases
      { domain := "site-1", endpoints := [⟨"/no-method"⟩] }).2.2.1
      ⟨"/no-method"⟩ (by decide) (by decide)).1
  · exact (construct_config_error_cases _).1.mpr (by decide)

/-- C2: the newest revision's classifier computes `belongsToSite`
(`req.isSite`) as true exactly when `isMultiSite` is false, or the
hostname contains the domain as a substring, or one of the first three
non-empty path segments equals the domain; in particular, with
`isMultiSite = false` every request belongs to the site. -/
theorem belongsToSite_iff :
    ∀ (cfg : SiteCfg) (req : Req),
      ((classifyV3 cfg req).isSite = true ↔
        (cfg.isMultiSite = false
          ∨ jsIncludes req.hostname cfg.domain = true
          ∨ (pathSegments req.path).get? 0 = some cfg.domain
          ∨ (pathSegments req.path).get? 1 = some cfg.domain
          ∨ (pathSegments req.path).get? 2 = some cfg.domain))
      ∧ (cfg.isMultiSite = false → (classifyV3 cfg req).isSite = true) := by
  intro cfg req
  refine ⟨?_, ?_⟩
  · simp only [classifyV3, Bool.or_eq_true, Bool.not_eq_true', beq_iff_eq]
    tauto
  · intro h
    simp [classifyV3, h]

/-- C2 witness: in single-site mode a request matching neither hostname
nor path still belongs to the site. -/
theorem belongsToSite_iff_witness :
    (classifyV3 { domain := "site-1" }
      { method := "GET", hostname := "example.com", path := "/nothing" }).isSite = true :=
  (belongsToSite_iff { domain := "site-1" }
    { method := "GET", hostname := "example.com", path := "/nothing" }).2 rfl

/-- Site 1 of the C10 scenario: owns `/site-1/...` requests, has no
endpoints and no middleware. -/
def c10cfg1 : SiteCfg := { domain := "site-1" }

/-- Site 2 of the C10 scenario: one un-scoped middleware whose handler
records the label `"site-2-mw"` and calls `next`. -/
def c10cfg2 : SiteCfg :=
  { domain := "site-2"
    middleware := [{ path := none, handler := fun r => .next r ["site-2-mw"] }] }

/-- The C10 request: a `POST` owned only by site 1 via its path prefix;
`POST` matches no endpoint and is skipped by the `GET`-only catch-all. -/
def c10req : Req := { method := "POST", hostname := "localhost", path := "/site-1/data" }

/-- C10: in the middleware revision, each site's classifier ORs its own
match conditions with the flag left by earlier sites, so the ownership
flag is monotone across site chains; consequently, in a two-site app, a
`POST` request owned only by site 1 falls through site 1's whole chain
(the `GET`-only catch-all does not terminate it) and reaches site 2's
un-scoped middleware with the flag still set, so that middleware's
handler runs. -/
theorem ownership_flag_monotone :
    (∀ (cfg : SiteCfg) (req : Req), req.isSite = true →
      (classifyV2 cfg req).isSite = true)
    ∧ runChain []
        (chainV2 c10cfg1 "/app/sites/site-1/public"
          ++ chainV2 c10cfg2 "/app/sites/site-2/public") c10req
        = (none, ["site-2-mw"]) := by
  constructor
  · intro cfg req h
    simp [classifyV2, h]
  · decide

/-- C10 witness: the monotonicity part applied to a concrete
already-owned request reaching site 2's classifier. -/
theorem ownership_flag_monotone_witness :
    (classifyV2 c10cfg2
      { method := "POST", hostname := "localhost", path := "/site-1/data",
        isSite := true, pathParts := ["site-1", "data"] }).isSite = true :=
  ownership_flag_monotone.1 c10cfg2
    { method := "POST", hostname := "localhost", path := "/site-1/data",
      isSite := true, pathParts := ["site-1", "data"] } rfl

/-- The C4 site with only `GET /api/test-1` registered. -/
def c4cfg1 : SiteCfg := { domain := "site-1", endpoints := [⟨"GET /api/test-1"⟩] }

/-- The C4 site with only `GET /api/test-12` registered. -/
def c4cfg12 : SiteCfg := { domain := "site-1", endpoints := [⟨"GET /api/test-12"⟩] }

/-- An owned, classified request to `/api/test-1`. -/
def c4req1 : Req :=
  { method := "GET", hostname := "site-1", path := "/api/test-1",
    isSite := true, pathParts := ["api", "test-1"] }

/-- An owned, classified request to `/api/test-12`. -/
def c4req12 : Req :=
  { method := "GET", hostname := "site-1", path := "/api/test-12",
    isSite := true, pathParts := ["api", "test-12"] }

/-- C4 counterexample: with only `GET /api/test-12` registered, a request
to `/api/test-1` does NOT pass the guard (the endpoint's stripped route
`/api/test-12` is not a substring of `/api/test-1`), so the guard
responds 404 — refuting the claim's first direction. -/
theorem substring_matching_cex :
    guardRun c4cfg12 c4req1 = .stop (.emptyStatus 404) [] := by decide

/-- C4 amended: the substring imprecision is one-directional — a request
to `/api/test-12` incorrectly passes the guard when only `GET
/api/test-1` is registered (the stripped route is a substring of the
request path), while the converse request `/api/test-1` against only
`GET /api/test-12` receives 404. -/
theorem substring_matching_one_directional :
    guardRun c4cfg1 c4req12 = .next c4req12 []
    ∧ guardRun c4cfg12 c4req1 = .stop (.emptyStatus 404) [] := by decide

/-- The asset root of the C7 traversal scenario. -/
def c7pub : String := "/app/sites/site-1/public"

/-- A filesystem whose only file lies OUTSIDE the asset root. -/
def c7fs : FS := [("/app/sites/site-1/secret.txt", "outside-the-root")]

/-- An owned request whose static remainder contains a `..` segment. -/
def c7req : Req :=
  { method := "GET", hostname := "site-1", path := "/static/../secret.txt",
    isSite := true, pathParts := ["static", "..", "secret.txt"] }

/-- C7 evaluation at the failing input: the static gate's existence check
resolves the `..` remainder to a path outside `assetsRootDir`, finds the
outside file, and delegates to the static server instead of responding
404 — the gate has no traversal guard. -/
theorem traversal_not_guarded :
    staticApplies c7req.path = true
    ∧ staticRest c7req.path = "/../secret.txt"
    ∧ normJoin c7pub (staticRest c7req.path) = "/app/sites/site-1/secret.txt"
    ∧ strStartsWith "/app/sites/site-1/secret.txt" c7pub = false
    ∧ staticRunV2 c7pub c7fs c7req = .stop (.delegate c7pub "/../secret.txt") []
    ∧ staticRunV2 c7pub c7fs c7req ≠ .stop (.emptyStatus 404) [] := by decide

/-- C1: for an owned, classified request whose first or second
slash-prepended path segment equals the configured `apiBasePath`, when no
registered endpoint's stripped route is a substring of the request path,
the endpoint-existence guard responds 404 with an empty body and stops
the chain: whatever layers follow it — endpoint dispatch and the
shell-serving catch-all — are never reached, so the request never
receives the SPA shell. -/
theorem unknown_api_request_gets_404 :
    ∀ (cfg : SiteCfg) (fs : FS) (req : Req),
      req.isSite = true →
      req.pathParts = pathSegments req.path →
      (slashSeg (pathSegments req.path) 0 == cfg.apiBasePath
        || slashSeg (pathSegments req.path) 1 == cfg.apiBasePath) = true →
      cfg.endpoints.all (fun e => !(jsIncludes req.path (stripParamPath e.path))) = true →
      guardRun cfg req = .stop (.emptyStatus 404) []
      ∧ ∀ tail, runChain fs (guardLayer cfg :: tail) req
          = (some (.emptyStatus 404), []) := by
  intro cfg fs req hsite hparts hseg hall
  have hany : cfg.endpoints.any
      (fun e => jsIncludes req.path (stripParamPath e.path)) = false := by
    rw [← Bool.not_eq_true, List.any_eq_true]
    rintro ⟨e, he, hp⟩
    have := List.all_eq_true.mp hall e he
    simp [hp] at this
  have hg : guardRun cfg req = .stop (.emptyStatus 404) [] := by
    unfold guardRun
    rw [hparts]
    simp [hsite, hseg, hany]
  exact ⟨hg, fun tail => by simp [runChain, guardLayer, hg]⟩

/-- The C1 witness site: only `GET /api/test-1` is registered. -/
def c1cfg : SiteCfg := { domain := "site-1", endpoints := [⟨"GET /api/test-1"⟩] }

/-- The C1 witness request: an owned request for the unregistered API
route `/site-1/api/test-2`. -/
def c1req : Req :=
  { method := "GET", hostname := "localhost", path := "/site-1/api/test-2",
    isSite := true, pathParts := ["site-1", "api", "test-2"] }

/-- C1 witness: even with the site's `index.html` present, the unknown
API request is answered 404 by the guard and the catch-all after it is
never consulted. -/
theorem unknown_api_request_gets_404_witness :
    runChain [("/app/sites/site-1/public/index.html", "<title>Site 1</title>")]
      (guardLayer c1cfg :: [catchAllLayerV2 "/app/sites/site-1/public"]) c1req
      = (some (.emptyStatus 404), []) :=
  (unknown_api_request_gets_404 c1cfg _ c1req
    (by decide) (by decide) (by decide) (by decide)).2 _

theorem mwLayer_kind (m : MiddlewareSpec) : (mwLayer m).kind = .mw := by
  cases hm : m.path <;> simp [mwLayer, hm]

/-- C3: the middleware wrapper passes straight to the next handler for
non-owning requests (whatever the user handler is), runs the user handler
for owned requests, a path-scoped registration matches exactly the
requests with that method whose path is any string of leading segments
followed by the normalized route (so `/{domain}/p` matches `/p`'s route),
an un-scoped registration matches every request, and in the chain built
by `load` every middleware layer sits after the classifier and static
gate and before the endpoint guard, endpoint dispatch and catch-all. -/
theorem middleware_scoping :
    (∀ (m : MiddlewareSpec) (fs : FS) (req : Req), req.isSite = false →
      (mwLayer m).run fs req = .next req [])
    ∧ (∀ (m : MiddlewareSpec) (fs : FS) (req : Req), req.isSite = true →
      (mwLayer m).run fs req = m.handler req)
    ∧ (∀ (m : MiddlewareSpec) (p : String) (req : Req), m.path = some p →
      ((mwLayer m).applies req = true ↔
        (strLower req.method = strLower (((jsSplit p " ").get? 0).getD "")
          ∧ ∃ pre : String, req.path = pre ++ mwRoutePath p)))
    ∧ (∀ (m : MiddlewareSpec) (req : Req), m.path = none →
      (mwLayer m).applies req = true)
    ∧ (∀ (cfg : SiteCfg) (pub : String),
      (chainV2 cfg pub).map Layer.kind
        = [LayerKind.classifier, LayerKind.staticGate]
          ++ cfg.middleware.map (fun _ => LayerKind.mw)
          ++ [LayerKind.guard, LayerKind.endpoints, LayerKind.catchAll]) := by
  refine ⟨?_, ?_, ?_, ?_, ?_⟩
  · intro m fs req h
    cases hm : m.path <;> simp [mwLayer, hm, mwHandle, h]
  · intro m fs req h
    cases hm : m.path <;> simp [mwLayer, hm, mwHandle, h]
  · intro m p req hm
    simp only [mwLayer, hm, Bool.and_eq_true, beq_iff_eq, strEndsWith_iff]
  · intro m req hm
    simp [mwLayer, hm]
  · intro cfg pub
    simp [chainV2, List.map_map, Function.comp_def, mwLayer_kind,
      classifierLayerV2, staticLayerV2, guardLayer, endpointsLayer,
      catchAllLayerV2]

/-- The C3 witness middleware: scoped to `GET /test-1`, recording a label. -/
def c3mw : MiddlewareSpec :=
  { path := some "GET /test-1", handler := fun r => .next r ["custom-header-1"] }

/-- C3 witness: for a non-owned request the wrapper passes through
untouched; the `GET /test-1` scope matches the domain-prefixed request
path `/site-1/test-1`; an un-scoped registration matches everything. -/
theorem middleware_scoping_witness :
    (mwLayer c3mw).run []
        { method := "GET", hostname := "localhost", path := "/site-1/test-1" }
      = .next { method := "GET", hostname := "localhost", path := "/site-1/test-1" } []
    ∧ (mwLayer c3mw).applies
        { method := "GET", hostname := "localhost", path := "/site-1/test-1" } = true
    ∧ (mwLayer { path := none, handler := fun r => .next r ["x"] }).applies
        { method := "POST", hostname := "localhost", path := "/anything" } = true := by
  refine ⟨middleware_scoping.1 c3mw [] _ rfl, ?_, ?_⟩
  · exact (middleware_scoping.2.2.1 c3mw "GET /test-1" _ rfl).mpr
      ⟨by decide, "/site-1", by decide⟩
  · exact middleware_scoping.2.2.2.1 _ _ rfl

/-- C5: the catch-all gate is a `GET`-only wildcard route; for an owned
request it responds 404 when `<assetsRootDir>/index.html` is absent, and
when present it responds 200 with the shell document — rewritten between
the bare `static` path and the domain-scoped `{domain}/static` path when
`isProd` is false. -/
theorem catch_all_serves_shell :
    ∀ (cfg : SiteCfg) (pub : String) (fs : FS) (req : Req),
      req.isSite = true →
      ((catchAllLayerV3 cfg pub).applies req = true ↔ req.method = "GET")
      ∧ (fsRead fs (normJoin pub "index.html") = none →
          catchAllRunV3 cfg pub fs req = .stop (.emptyStatus 404) [])
      ∧ (∀ content, fsRead fs (normJoin pub "index.html") = some content →
          catchAllRunV3 cfg pub fs req
            = .stop (.sent 200
                (if cfg.isProd then content else rewriteIndex cfg.domain content)
                none) []) := by
  intro cfg pub fs req hsite
  refine ⟨?_, ?_, ?_⟩
  · simp [catchAllLayerV3]
  · intro hnone
    simp [catchAllRunV3, hsite, hnone]
  · intro content hsome
    simp [catchAllRunV3, hsite, hsome]

/-- C5 witness: in development mode the served shell has its bare
`static` asset reference rewritten to `site-1/static`; with no shell
file the response is 404. -/
theorem catch_all_serves_shell_witness :
    catchAllRunV3 { domain := "site-1" } "/app/sites/site-1/public"
        [("/app/sites/site-1/public/index.html", "<link href=\"static/styles.css\">")]
        { method := "GET", hostname := "site-1", path := "/", isSite := true }
      = .stop (.sent 200 "<link href=\"site-1/static/styles.css\">" none) []
    ∧ catchAllRunV3 { domain := "site-1" } "/app/sites/site-1/public" []
        { method := "GET", hostname := "site-1", path := "/", isSite := true }
      = .stop (.emptyStatus 404) [] := by
  constructor
  · exact (catch_all_serves_shell { domain := "site-1" } "/app/sites/site-1/public"
      [("/app/sites/site-1/public/index.html", "<link href=\"static/styles.css\">")]
      { method := "GET", hostname := "site-1", path := "/", isSite := true }
      rfl).2.2 "<link href=\"static/styles.css\">" (by decide)
  · exact (catch_all_serves_shell { domain := "site-1" } "/app/sites/site-1/public" []
      { method := "GET", hostname := "site-1", path := "/", isSite := true }
      rfl).2.1 (by decide)

/-- C6: for a request matching the static mount, the gate passes through
untouched when the request is not owned; when owned and the remainder
after the `/static` marker does not resolve to an existing file it
responds 404 and stops the chain (no following layer — in particular no
later site's chain — is reached); when owned and the remainder resolves
to an existing file it delegates to the static server scoped to the
asset root, which serves that file's content. -/
theorem static_gate_contract :
    ∀ (pub : String) (fs : FS) (req : Req),
      staticApplies req.path = true →
      ((req.isSite = false → staticRunV2 pub fs req = .next req [])
      ∧ (req.isSite = true →
          fsExists fs (normJoin pub (staticRest req.path)) = false →
          ∀ tail, runChain fs (staticLayerV2 pub :: tail) req
            = (some (.emptyStatus 404), []))
      ∧ (req.isSite = true →
          ∀ content, fsRead fs (normJoin pub (staticRest req.path)) = some content →
            staticRunV2 pub fs req = .stop (.delegate pub (staticRest req.path)) []
            ∧ serveStaticFile fs pub (staticRest req.path) = .sent 200 content none)) := by
  intro pub fs req happ
  refine ⟨?_, ?_, ?_⟩
  · intro h
    simp [staticRunV2, h]
  · intro hsite hex tail
    have hrun : staticRunV2 pub fs req = .stop (.emptyStatus 404) [] := by
      simp [staticRunV2, hsite, hex]
    simp [runChain, staticLayerV2, happ, hrun]
  · intro hsite content hsome
    have hex : fsExists fs (normJoin pub (staticRest req.path)) = true := by
      simp [fsExists, hsome]
    exact ⟨by simp [staticRunV2, hsite, hex],
      by simp [serveStaticFile, hsome]⟩

/-- C6 witness: `/site-1/static/styles.css` serves the file's content
from the asset root; a missing `/static/styles-1.css` stops the chain
with 404 even though further layers follow. -/
theorem static_gate_contract_witness :
    (staticRunV2 "/app/sites/site-1/public"
        [("/app/sites/site-1/public/styles.css", "#site-1-css")]
        { method := "GET", hostname := "localhost", path := "/site-1/static/styles.css",
          isSite := true, pathParts := ["site-1", "static", "styles.css"] }
      = .stop (.delegate "/app/sites/site-1/public" "/styles.css") []
      ∧ serveStaticFile [("/app/sites/site-1/public/styles.css", "#site-1-css")]
          "/app/sites/site-1/public" "/styles.css" = .sent 200 "#site-1-css" none)
    ∧ runChain []
        (staticLayerV2 "/app/sites/site-1/public" :: [catchAllLayerV2 "/app/sites/site-1/public"])
        { method := "GET", hostname := "localhost", path := "/static/styles-1.css",
          isSite := true, pathParts := ["static", "styles-1.css"] }
      = (some (.emptyStatus 404), []) := by
  constructor
  · exact (static_gate_contract "/app/sites/site-1/public"
      [("/app/sites/site-1/public/styles.css", "#site-1-css")]
      { method := "GET", hostname := "localhost", path := "/site-1/static/styles.css",
        isSite := true, pathParts := ["site-1", "static", "styles.css"] }
      (by decide)).2.2 rfl "#site-1-css" (by decide)
  · exact (static_gate_contract "/app/sites/site-1/public" []
      { method := "GET", hostname := "localhost", path := "/static/styles-1.css",
        isSite := true, pathParts := ["static", "styles-1.css"] }
      (by decide)).2.1 rfl (by decide) _

/-- The C8 counterexample site. -/
def c8cfg : SiteCfg := { domain := "site-1" }

/-- The C8 counterexample request: owned, domain-prefixed, with a first
remaining segment not on the allow-list. -/
def c8req : Req :=
  { method := "GET", hostname := "localhost", path := "/site-1/press",
    isSite := true, pathParts := ["site-1", "press"] }

/-- C8 counterexample: the gate passes this request on, but NOT
unchanged — the in-place `shift()` removed the leading domain segment
from `req.pathParts`, and later gates observe the mutated list. -/
theorem common_gate_mutates_cex :
    commonRun c8cfg "/app/sites/site-1/public" [] c8req
      = .next { c8req with pathParts := ["press"] } []
    ∧ { c8req with pathParts := ["press"] } ≠ c8req := by decide

/-- C8 amended: for owned requests the gate first strips a leading domain
segment from `req.pathParts` (an in-place mutation the request keeps);
if the first remaining segment is exactly one of `sitemap.xml`,
`robots.txt`, `.well-known`, it resolves the joined remaining segments
against the asset root and serves the file with content-type
`text/plain` when it exists, else responds 404; every other owned
request passes through without a response but with the possibly-stripped
`pathParts`; non-owned requests pass through untouched. -/
theorem common_gate_contract :
    ∀ (cfg : SiteCfg) (pub : String) (fs : FS) (req : Req),
      (req.isSite = false → commonRun cfg pub fs req = .next req [])
      ∧ (req.isSite = true →
        ∀ parts, parts = (if req.pathParts.get? 0 == some cfg.domain
            then req.pathParts.drop 1 else req.pathParts) →
          (((parts.get? 0).elim false (fun h => commonNames.contains h) = true →
            (fsExists fs (normJoin pub (String.intercalate "/" parts)) = true →
              commonRun cfg pub fs req
                = .stop (.fileSent (normJoin pub (String.intercalate "/" parts))
                    (some "text/plain")) [])
            ∧ (fsExists fs (normJoin pub (String.intercalate "/" parts)) = false →
              commonRun cfg pub fs req = .stop (.emptyStatus 404) []))
          ∧ ((parts.get? 0).elim false (fun h => commonNames.contains h) = false →
            commonRun cfg pub fs req = .next { req with pathParts := parts } []))) := by
  intro cfg pub fs req
  constructor
  · intro h
    simp [commonRun, h]
  · intro hsite parts hparts
    subst hparts
    constructor
    · intro hhead
      simp at hhead
      constructor
      · intro hex
        simp at hex
        simp [commonRun, hsite, hhead, hex]
      · intro hex
        simp at hex
        simp [commonRun, hsite, hhead, hex]
    · intro hhead
      simp at hhead
      simp [commonRun, hsite, hhead]

/-- C8 witness: `/site-1/robots.txt` is served from the asset root with
content-type `text/plain`; the missing `/site-1/sitemap.xml` gets 404. -/
theorem common_gate_contract_witness :
    commonRun { domain := "site-1" } "/app/sites/site-1/public"
        [("/app/sites/site-1/public/robots.txt", "User-agent: *")]
        { method := "GET", hostname := "localhost", path := "/site-1/robots.txt",
          isSite := true, pathParts := ["site-1", "robots.txt"] }
      = .stop (.fileSent "/app/sites/site-1/public/robots.txt" (some "text/plain")) []
    ∧ commonRun { domain := "site-1" } "/app/sites/site-1/public" []
        { method := "GET", hostname := "localhost", path := "/site-1/sitemap.xml",
          isSite := true, pathParts := ["site-1", "sitemap.xml"] }
      = .stop (.emptyStatus 404) [] := by
  constructor
  · exact (((common_gate_contract { domain := "site-1" } "/app/sites/site-1/public"
      [("/app/sites/site-1/public/robots.txt", "User-agent: *")]
      { method := "GET", hostname := "localhost", path := "/site-1/robots.txt",
        isSite := true, pathParts := ["site-1", "robots.txt"] }).2
      rfl ["robots.txt"] (by decide)).1 (by decide)).1 (by decide)
  · exact (((common_gate_contract { domain := "site-1" } "/app/sites/site-1/public" []
      { method := "GET", hostname := "localhost", path := "/site-1/sitemap.xml",
        isSite := true, pathParts := ["site-1", "sitemap.xml"] }).2
      rfl ["sitemap.xml"] (by decide)).1 (by decide)).2 (by decide)

end SiteLoader
